import Mathlib

set_option autoImplicit false
set_option maxRecDepth 8000

/-!
Verification of the error module of the xmldom repository
(src/lib/errors.js): the DOMException kind registry, the dual-mode
DOMException constructor with its derived code getter, the legacy
ExceptionCode constants, and the ParseError type.
-/

/-- Model of a JavaScript runtime value, as far as the error module observes
it: undefined, null, booleans, numbers, strings, and opaque object
references. Numbers are modelled as rationals, which contain every finite
double — in particular the non-integer values such as 1.5 that pass the
module's 1..25 range check yet miss every array index. The three non-finite
doubles (NaN and the two infinities) are not modelled: each fails the
source's `value >= 1 && value <= 25` comparisons, so each behaves exactly
like the modelled out-of-range numbers. -/
inductive JSValue where
  | undefined
  | null
  | boolean (b : Bool)
  | num (n : ℚ)
  | str (s : String)
  | obj (id : Nat)
deriving DecidableEq, Repr

/-- JavaScript truthiness of a modelled value: undefined, null, false, 0 and
the empty string are falsy; objects are always truthy. -/
def jsTruthy : JSValue → Bool
  | JSValue.undefined => false
  | JSValue.null => false
  | JSValue.boolean b => b
  | JSValue.num n => decide (n ≠ 0)
  | JSValue.str s => decide (s ≠ "")
  | JSValue.obj _ => true

/-- JavaScript `a || b`: the first operand when it is truthy, otherwise the
second. -/
def jsOr (a b : JSValue) : JSValue :=
  if jsTruthy a then a else b

/-- Embedding of `DOMExceptionNames = Object.keys(DOMExceptionName)`
(src/lib/errors.js lines 17-89): the frozen `DOMExceptionName` object maps
every kind name to itself, so its key list in insertion order is the ordered
registry of exception kind names. -/
def DOMExceptionNames : List String :=
  ["Error", "IndexSizeError", "DomstringSizeError", "HierarchyRequestError",
   "WrongDocumentError", "InvalidCharacterError", "NoDataAllowedError",
   "NoModificationAllowedError", "NotFoundError", "NotSupportedError",
   "InUseAttributeError", "InvalidStateError", "SyntaxError",
   "InvalidModificationError", "NamespaceError", "InvalidAccessError",
   "ValidationError", "TypeMismatchError", "SecurityError", "NetworkError",
   "AbortError", "URLMismatchError", "QuotaExceededError", "TimeoutError",
   "InvalidNodeTypeError", "DataCloneError", "EncodingError",
   "NotReadableError", "UnknownError", "ConstraintError", "DataError",
   "TransactionInactiveError", "ReadOnlyError", "VersionError",
   "OperationError", "NotAllowedError", "OptOutError"]

/-- Embedding of `isValidDomExceptionCode` (src/lib/errors.js lines 95-97):
true exactly when the value is a number between 1 and 25 inclusive. -/
def isValidDomExceptionCode : JSValue → Bool
  | JSValue.num n => decide (1 ≤ n) && decide (n ≤ 25)
  | _ => false

/-- Embedding of `endsWithError` (src/lib/errors.js lines 102-104): the value
is a string whose `substring(length - "Error".length)` equals `"Error"`.
JavaScript clamps a negative start index to 0; the truncated Nat subtraction
in the model behaves the same way. -/
def endsWithError : JSValue → Bool
  | JSValue.str s => String.mk (s.data.drop (s.length - "Error".length)) == "Error"
  | _ => false

/-- JavaScript `Array.prototype.indexOf` on an array of strings: the index of
the first strictly-equal element, or -1 when the element is absent. -/
def strIndexOf : List String → String → Int
  | [], _ => -1
  | x :: xs, s =>
    if x = s then 0
    else if strIndexOf xs s < 0 then -1 else strIndexOf xs s + 1

/-- JavaScript `array.indexOf(v)` for an arbitrary value `v` over an array of
strings: strict equality means a non-string value never matches. -/
def jsIndexOf (l : List String) : JSValue → Int
  | JSValue.str s => strIndexOf l s
  | _ => -1

/-- JavaScript array indexing `l[i]` on an array of strings: the element when
`i` is a non-negative integer below the length, `undefined` otherwise. A
fractional index such as 1.5 names a property no array has, so the access
yields `undefined`. -/
def jsIndex (l : List String) (i : ℚ) : JSValue :=
  if i < 0 then JSValue.undefined
  else if i.den = 1 then ((l.get? i.num.toNat).map JSValue.str).getD JSValue.undefined
  else JSValue.undefined

/-- The observable own state of a constructed `DOMException` instance: the
`name` and `message` properties assigned by the constructor (src/lib/errors.js
lines 141-153). The best-effort stack-trace capture on line 152 is
environment-dependent and carries no data any other part of the module reads,
so it is not modelled. -/
structure DOMExceptionInst where
  name : JSValue
  message : JSValue
deriving DecidableEq, Repr

/-- Numeric payload of a value already known to be a number; used only under
the `isValidDomExceptionCode` guard, which guarantees the `num` case. -/
def jsNumValue : JSValue → ℚ
  | JSValue.num n => n
  | _ => 0

/-- Embedding of the `DOMException` constructor (src/lib/errors.js lines
141-153): when the first argument is a valid legacy code the name is looked
up in the registry and the second argument (or the empty string) becomes the
message; otherwise the first argument becomes the message and the name is the
second argument when it is a string ending in "Error", else the default kind
`DOMExceptionName.Error`. -/
def DOMException (messageOrCode : JSValue) (nameOrMessage : JSValue) : DOMExceptionInst :=
  if isValidDomExceptionCode messageOrCode then
    { name := jsIndex DOMExceptionNames (jsNumValue messageOrCode)
      message := jsOr nameOrMessage (JSValue.str "") }
  else
    { name := if endsWithError nameOrMessage then nameOrMessage else JSValue.str "Error"
      message := messageOrCode }

/-- Embedding of the `code` getter on `DOMException.prototype`
(src/lib/errors.js lines 155-164): the registry index of the instance's name
when that index is a valid legacy code, else 0. -/
def code (e : DOMExceptionInst) : Int :=
  if isValidDomExceptionCode (JSValue.num (jsIndexOf DOMExceptionNames e.name)) then
    jsIndexOf DOMExceptionNames e.name
  else 0

/-- The code an instance carrying the given name reads back: the module's
name-to-legacy-code lookup (the spec's `KindRegistry.positionOf`). -/
def nameToCode (s : String) : Int :=
  code { name := JSValue.str s, message := JSValue.undefined }

/-- The observable state of a `ParseError` instance (src/lib/errors.js lines
234-238): exactly the message and the locator passed to the constructor. -/
structure ParseErrorInst where
  message : JSValue
  locator : JSValue
deriving DecidableEq, Repr

/-- Embedding of the `ParseError` constructor (src/lib/errors.js lines
234-238). -/
def ParseError (message : JSValue) (locator : JSValue) : ParseErrorInst :=
  { message := message, locator := locator }

/-- A failure value at a catch site: either a `DOMException` instance or a
`ParseError` instance. `extendError` gives each constructor its own distinct
prototype object, so `instanceof` distinguishes them at runtime; the model
keeps them as distinct variants of one sum. -/
inductive JSErrorValue where
  | domException (e : DOMExceptionInst)
  | parseError (e : ParseErrorInst)
deriving DecidableEq, Repr

/-- Model of the runtime check `v instanceof ParseError` used by the parser's
recovery loop to re-raise parse failures unconditionally. -/
def isParseErrorValue : JSErrorValue → Bool
  | JSErrorValue.parseError _ => true
  | JSErrorValue.domException _ => false

/-- Embedding of `ExceptionCode.INDEX_SIZE_ERR` (src/lib/errors.js line 167). -/
def INDEX_SIZE_ERR : Int := 1

/-- Embedding of `ExceptionCode.DOMSTRING_SIZE_ERR` (line 168). -/
def DOMSTRING_SIZE_ERR : Int := 2

/-- Embedding of `ExceptionCode.HIERARCHY_REQUEST_ERR` (line 169). -/
def HIERARCHY_REQUEST_ERR : Int := 3

/-- Embedding of `ExceptionCode.WRONG_DOCUMENT_ERR` (line 170). -/
def WRONG_DOCUMENT_ERR : Int := 4

/-- Embedding of `ExceptionCode.INVALID_CHARACTER_ERR` (line 171). -/
def INVALID_CHARACTER_ERR : Int := 5

/-- Embedding of `ExceptionCode.NO_DATA_ALLOWED_ERR` (line 172). -/
def NO_DATA_ALLOWED_ERR : Int := 6

/-- Embedding of `ExceptionCode.NO_MODIFICATION_ALLOWED_ERR` (line 173). -/
def NO_MODIFICATION_ALLOWED_ERR : Int := 7

/-- Embedding of `ExceptionCode.NOT_FOUND_ERR` (line 174). -/
def NOT_FOUND_ERR : Int := 8

/-- Embedding of `ExceptionCode.NOT_SUPPORTED_ERR` (line 175). -/
def NOT_SUPPORTED_ERR : Int := 9

/-- Embedding of `ExceptionCode.INUSE_ATTRIBUTE_ERR` (line 176). -/
def INUSE_ATTRIBUTE_ERR : Int := 10

/-- Embedding of `ExceptionCode.INVALID_STATE_ERR` (line 177). -/
def INVALID_STATE_ERR : Int := 11

/-- Embedding of `ExceptionCode.SYNTAX_ERR` (line 178). -/
def SYNTAX_ERR : Int := 12

/-- Embedding of `ExceptionCode.INVALID_MODIFICATION_ERR` (line 179). -/
def INVALID_MODIFICATION_ERR : Int := 13

/-- Embedding of `ExceptionCode.NAMESPACE_ERR` (line 180). -/
def NAMESPACE_ERR : Int := 14

/-- Embedding of `ExceptionCode.INVALID_ACCESS_ERR` (line 181). -/
def INVALID_ACCESS_ERR : Int := 15

/-- Embedding of `ExceptionCode.VALIDATION_ERR` (line 182). -/
def VALIDATION_ERR : Int := 16

/-- Embedding of `ExceptionCode.TYPE_MISMATCH_ERR` (line 183). -/
def TYPE_MISMATCH_ERR : Int := 17

/-- Embedding of `ExceptionCode.SECURITY_ERR` (line 184). -/
def SECURITY_ERR : Int := 18

/-- Embedding of `ExceptionCode.NETWORK_ERR` (line 185). -/
def NETWORK_ERR : Int := 19

/-- Embedding of `ExceptionCode.ABORT_ERR` (line 186). -/
def ABORT_ERR : Int := 20

/-- Embedding of `ExceptionCode.URL_MISMATCH_ERR` (line 187). -/
def URL_MISMATCH_ERR : Int := 21

/-- Embedding of `ExceptionCode.QUOTA_EXCEEDED_ERR` (line 188). -/
def QUOTA_EXCEEDED_ERR : Int := 22

/-- Embedding of `ExceptionCode.TIMEOUT_ERR` (line 189). -/
def TIMEOUT_ERR : Int := 23

/-- Embedding of `ExceptionCode.INVALID_NODE_TYPE_ERR` (line 190). -/
def INVALID_NODE_TYPE_ERR : Int := 24

/-- Embedding of `ExceptionCode.DATA_CLONE_ERR` (line 191). -/
def DATA_CLONE_ERR : Int := 25

/-- Modelled from the spec: the spec phrase "message = secondary coerced to a
string" read as the JavaScript ToString conversion on the modelled values.
This definition follows the spec's words, not the source; the source stores
`nameOrMessage || ''` without any coercion, and the two are compared below. -/
def specCoerceToString : JSValue → JSValue
  | JSValue.undefined => JSValue.str "undefined"
  | JSValue.null => JSValue.str "null"
  | JSValue.boolean b => JSValue.str (if b then "true" else "false")
  | JSValue.num n => JSValue.str (toString n)
  | JSValue.str s => JSValue.str s
  | JSValue.obj _ => JSValue.str "[object Object]"

example : DOMException (JSValue.num 3) JSValue.undefined =
    { name := JSValue.str "HierarchyRequestError", message := JSValue.str "" } := by decide

example : code (DOMException (JSValue.num 3) JSValue.undefined) = 3 := by decide

example : DOMException (JSValue.str "bad token") (JSValue.str "SyntaxError") =
    { name := JSValue.str "SyntaxError", message := JSValue.str "bad token" } := by decide

example : code (DOMException (JSValue.str "bad token") (JSValue.str "SyntaxError")) = 12 := by decide

example : DOMException (JSValue.str "bad token") JSValue.undefined =
    { name := JSValue.str "Error", message := JSValue.str "bad token" } := by decide

example : DOMException (JSValue.num 99) (JSValue.str "x") =
    { name := JSValue.str "Error", message := JSValue.num 99 } := by decide

example : code (DOMException (JSValue.num 99) (JSValue.str "x")) = 0 := by decide

lemma isValid_num_iff (n : ℚ) :
    isValidDomExceptionCode (JSValue.num n) = true ↔ 1 ≤ n ∧ n ≤ 25 := by
  simp [isValidDomExceptionCode]

lemma DOMException_legacy (n : ℚ) (h1 : 1 ≤ n) (h2 : n ≤ 25) (s : JSValue) :
    DOMException (JSValue.num n) s =
      { name := jsIndex DOMExceptionNames n, message := jsOr s (JSValue.str "") } := by
  have hv : isValidDomExceptionCode (JSValue.num n) = true := (isValid_num_iff n).mpr ⟨h1, h2⟩
  simp [DOMException, hv, jsNumValue]

lemma DOMException_fallback (v s : JSValue) (hv : isValidDomExceptionCode v = false) :
    DOMException v s =
      { name := if endsWithError s then s else JSValue.str "Error", message := v } := by
  simp [DOMException, hv]

lemma code_mk (nm msg : JSValue) :
    code { name := nm, message := msg } =
      if isValidDomExceptionCode (JSValue.num (jsIndexOf DOMExceptionNames nm)) then
        jsIndexOf DOMExceptionNames nm
      else 0 := rfl

lemma strIndexOf_nonneg_get {l : List String} {s : String} {c : Int}
    (hc : strIndexOf l s = c) (h0 : 0 ≤ c) : l.get? c.toNat = some s := by
  induction l generalizing c with
  | nil => simp [strIndexOf] at hc; omega
  | cons x xs ih =>
    simp only [strIndexOf] at hc
    by_cases hx : x = s
    · rw [if_pos hx] at hc
      have : c.toNat = 0 := by omega
      simp [this, hx]
    · rw [if_neg hx] at hc
      by_cases hr : strIndexOf xs s < 0
      · rw [if_pos hr] at hc; omega
      · rw [if_neg hr] at hc
        have hr' : 0 ≤ strIndexOf xs s := by omega
        have hct : c.toNat = (strIndexOf xs s).toNat + 1 := by omega
        rw [hct]
        simpa using ih rfl hr'

lemma strIndexOf_not_mem {l : List String} {s : String} (h : s ∉ l) :
    strIndexOf l s = -1 := by
  induction l with
  | nil => rfl
  | cons x xs ih =>
    have hx : ¬ x = s := fun he => h (he ▸ List.mem_cons_self x xs)
    have hxs : s ∉ xs := fun hm => h (List.mem_cons_of_mem x hm)
    simp [strIndexOf, hx, ih hxs]

lemma registry_roundtrip (n : Int) (h1 : 1 ≤ n) (h2 : n ≤ 25) :
    jsIndexOf DOMExceptionNames (jsIndex DOMExceptionNames n) = n := by
  interval_cases n <;> decide

lemma jsIndex_coe_int (l : List String) (n : Int) :
    jsIndex l (n : ℚ) =
      if n < 0 then JSValue.undefined
      else ((l.get? n.toNat).map JSValue.str).getD JSValue.undefined := by
  by_cases hn : n < 0
  · have hq : ((n : ℚ) < 0) := by exact_mod_cast hn
    simp [jsIndex, hq, hn]
  · have h0 : 0 ≤ n := not_lt.mp hn
    have hq : ¬ ((n : ℚ) < 0) := not_lt.mpr (by exact_mod_cast h0)
    simp [jsIndex, hq, hn, Rat.intCast_den, Rat.intCast_num]

lemma jsIndex_not_integral (l : List String) {q : ℚ} (hden : q.den ≠ 1) :
    jsIndex l q = JSValue.undefined := by
  by_cases hq : q < 0
  · simp [jsIndex, hq]
  · simp [jsIndex, hq, hden]

lemma jsIndex_of_get? {l : List String} {i : Int} {s : String}
    (h0 : 0 ≤ i) (h : l.get? i.toNat = some s) : jsIndex l (i : ℚ) = JSValue.str s := by
  rw [jsIndex_coe_int, if_neg (not_lt.mpr h0), h]
  rfl

lemma jsIndex_mem_of_lt {l : List String} {i : Int}
    (h0 : 0 ≤ i) (hlt : i.toNat < l.length) : jsIndex l (i : ℚ) ∈ l.map JSValue.str := by
  have hget := List.get?_eq_get (l := l) hlt
  rw [jsIndex_of_get? h0 hget]
  exact List.mem_map.mpr ⟨l.get ⟨i.toNat, hlt⟩, List.get_mem l _ _, rfl⟩

lemma code_range (e : DOMExceptionInst) : 0 ≤ code e ∧ code e ≤ 25 := by
  rw [code]
  by_cases hval :
      isValidDomExceptionCode (JSValue.num (jsIndexOf DOMExceptionNames e.name)) = true
  · rw [if_pos hval]
    have hbq := (isValid_num_iff _).mp hval
    have h1 : 1 ≤ jsIndexOf DOMExceptionNames e.name := by exact_mod_cast hbq.1
    have h2 : jsIndexOf DOMExceptionNames e.name ≤ 25 := by exact_mod_cast hbq.2
    omega
  · rw [if_neg (by simpa using hval)]
    omega

lemma code_pointback (e : DOMExceptionInst) :
    code e = 0 ∨ jsIndex DOMExceptionNames (code e) = e.name := by
  obtain ⟨nm, msg⟩ := e
  by_cases hval :
      isValidDomExceptionCode (JSValue.num (jsIndexOf DOMExceptionNames nm)) = true
  · right
    have hc : code { name := nm, message := msg } = jsIndexOf DOMExceptionNames nm := by
      rw [code_mk, if_pos hval]
    rw [hc]
    have hbq := (isValid_num_iff _).mp hval
    have hb : 1 ≤ jsIndexOf DOMExceptionNames nm ∧ jsIndexOf DOMExceptionNames nm ≤ 25 :=
      ⟨by exact_mod_cast hbq.1, by exact_mod_cast hbq.2⟩
    cases nm with
    | str s =>
      have hidx : strIndexOf DOMExceptionNames s = jsIndexOf DOMExceptionNames (JSValue.str s) := rfl
      have hget : DOMExceptionNames.get? (jsIndexOf DOMExceptionNames (JSValue.str s)).toNat = some s :=
        strIndexOf_nonneg_get hidx (by omega)
      exact jsIndex_of_get? (by omega) hget
    | undefined => simp [jsIndexOf] at hb
    | null => simp [jsIndexOf] at hb
    | boolean b => simp [jsIndexOf] at hb
    | num n => simp [jsIndexOf] at hb
    | obj id => simp [jsIndexOf] at hb
  · left
    rw [code_mk, if_neg (by simpa using hval)]

lemma code_of_name_eq {e : DOMExceptionInst} {n : Int} (h1 : 1 ≤ n) (h2 : n ≤ 25)
    (h : e.name = jsIndex DOMExceptionNames n) : code e = n := by
  rw [code, h, registry_roundtrip n h1 h2,
    if_pos ((isValid_num_iff n).mpr ⟨by exact_mod_cast h1, by exact_mod_cast h2⟩)]

lemma fallback_default (v s : JSValue) (hv : isValidDomExceptionCode v = false)
    (hs : endsWithError s = false) :
    (DOMException v s).name = JSValue.str "Error" ∧ code (DOMException v s) = 0 := by
  have h2 : DOMException v s = { name := JSValue.str "Error", message := v } := by
    rw [DOMException_fallback v s hv, hs]
    simp
  rw [h2]
  exact ⟨rfl, by rw [code_mk]; decide⟩

lemma isValid_exists {v : JSValue} (h : isValidDomExceptionCode v = true) :
    ∃ n : ℚ, v = JSValue.num n ∧ 1 ≤ n ∧ n ≤ 25 := by
  cases v with
  | num n => exact ⟨n, rfl, (isValid_num_iff n).mp h⟩
  | undefined => simp [isValidDomExceptionCode] at h
  | null => simp [isValidDomExceptionCode] at h
  | boolean b => simp [isValidDomExceptionCode] at h
  | str s => simp [isValidDomExceptionCode] at h
  | obj id => simp [isValidDomExceptionCode] at h

/-- C1: for every integer n with 1 ≤ n ≤ 25 and every string m, constructing a
DOMException with the number n and the string m selects legacy-code mode and
yields an instance whose name is the registry name at position n, whose
message is m, and whose code reads back as n. -/
theorem C1_legacy_construction (n : Int) (h1 : 1 ≤ n) (h2 : n ≤ 25) (m : String) :
    isValidDomExceptionCode (JSValue.num n) = true ∧
    (DOMException (JSValue.num n) (JSValue.str m)).name = jsIndex DOMExceptionNames n ∧
    (DOMException (JSValue.num n) (JSValue.str m)).message = JSValue.str m ∧
    code (DOMException (JSValue.num n) (JSValue.str m)) = n := by
  have h1' : (1 : ℚ) ≤ (n : ℚ) := by exact_mod_cast h1
  have h2' : (n : ℚ) ≤ 25 := by exact_mod_cast h2
  have hleg := DOMException_legacy (n : ℚ) h1' h2' (JSValue.str m)
  refine ⟨(isValid_num_iff (n : ℚ)).mpr ⟨h1', h2'⟩, ?_, ?_, ?_⟩
  · rw [hleg]
  · rw [hleg]
    by_cases hm : m = ""
    · subst hm; simp [jsOr, jsTruthy]
    · simp [jsOr, jsTruthy, hm]
  · exact code_of_name_eq h1 h2 (by rw [hleg])

/-- Witness for C1 at n = 3 and m = "m". -/
theorem C1_legacy_construction_witness :
    (1 : Int) ≤ 3 ∧ (3 : Int) ≤ 25 ∧
      (isValidDomExceptionCode (JSValue.num 3) = true ∧
       (DOMException (JSValue.num 3) (JSValue.str "m")).name = jsIndex DOMExceptionNames 3 ∧
       (DOMException (JSValue.num 3) (JSValue.str "m")).message = JSValue.str "m" ∧
       code (DOMException (JSValue.num 3) (JSValue.str "m")) = 3) :=
  ⟨by decide, by decide, C1_legacy_construction 3 (by decide) (by decide) "m"⟩

/-- C2: for every first argument that is not a number in the closed range
1..25 (including 0, 26, non-numeric values and the absent value), construction
selects name/message mode and stores the first argument itself, uncoerced, as
the message of the resulting instance. -/
theorem C2_fallthrough_message (v s : JSValue) (hv : isValidDomExceptionCode v = false) :
    (DOMException v s).message = v := by
  rw [DOMException_fallback v s hv]

/-- Witness for C2 at the out-of-range number 99 with second argument "x". -/
theorem C2_fallthrough_message_witness :
    isValidDomExceptionCode (JSValue.num 99) = false ∧
    (DOMException (JSValue.num 99) (JSValue.str "x")).message = JSValue.num 99 :=
  ⟨by decide, C2_fallthrough_message (JSValue.num 99) (JSValue.str "x") (by decide)⟩

/-- C3 counterexample: the claim quantifies over every construction whose
second argument is omitted, but constructing from the legacy code 3 with the
second argument omitted yields name "HierarchyRequestError" and code 3, not
name "Error" and code 0. -/
theorem C3_counterexample :
    (DOMException (JSValue.num 3) JSValue.undefined).name = JSValue.str "HierarchyRequestError" ∧
    code (DOMException (JSValue.num 3) JSValue.undefined) = 3 ∧
    JSValue.str "HierarchyRequestError" ≠ JSValue.str "Error" ∧ (3 : Int) ≠ 0 := by
  decide

/-- C3 amended: in name/message mode (first argument not a number in 1..25),
whenever the second argument is omitted, is a string not ending in "Error", or
is not a string — exactly the values on which endsWithError is false — the
resulting instance has name "Error" and code 0. -/
theorem C3_amended_default_name (v s : JSValue) (hv : isValidDomExceptionCode v = false)
    (hs : endsWithError s = false) :
    (DOMException v s).name = JSValue.str "Error" ∧ code (DOMException v s) = 0 :=
  fallback_default v s hv hs

/-- Witness for the amended C3 at first argument "bad token" with the second
argument omitted. -/
theorem C3_amended_default_name_witness :
    isValidDomExceptionCode (JSValue.str "bad token") = false ∧
    endsWithError JSValue.undefined = false ∧
    ((DOMException (JSValue.str "bad token") JSValue.undefined).name = JSValue.str "Error" ∧
      code (DOMException (JSValue.str "bad token") JSValue.undefined) = 0) :=
  ⟨by decide, by decide,
    C3_amended_default_name (JSValue.str "bad token") JSValue.undefined (by decide) (by decide)⟩

/-- C4 counterexample: the claimed invariant that the name is always one of
the KindRegistry's names fails twice over. Constructing with message "m" and
name "FooError" stores the name "FooError", which is not in the registry; and
the non-integer number `mkRat 3 2` (the JavaScript value 1.5) passes the
1..25 range check, takes the legacy branch, and indexes past every array
property, storing `undefined` as the name — a value that is neither a
registry name nor a string at all. -/
theorem C4_counterexample :
    ((DOMException (JSValue.str "m") (JSValue.str "FooError")).name = JSValue.str "FooError" ∧
      "FooError" ∉ DOMExceptionNames) ∧
    (isValidDomExceptionCode (JSValue.num (mkRat 3 2)) = true ∧
      (DOMException (JSValue.num (mkRat 3 2)) JSValue.undefined).name = JSValue.undefined ∧
      JSValue.undefined ∉ DOMExceptionNames.map JSValue.str ∧
      endsWithError JSValue.undefined = false) := by
  decide

/-- C4 amended: every constructed instance's name is one of the registry's
names, or a string ending in "Error" outside the registry (reachable in
name/message mode), or `undefined` (when the first argument is a non-integer
number inside the legacy range, so the registry lookup misses); the code
always lies in 0..25, a nonzero code points back through the registry to
exactly the instance's name, and a name equal to the registry entry at a
position n in 1..25 always reads back code n, so name and code never
disagree. -/
theorem C4_amended_invariant (v s : JSValue) :
    ((DOMException v s).name ∈ DOMExceptionNames.map JSValue.str ∨
      endsWithError (DOMException v s).name = true ∨
      (DOMException v s).name = JSValue.undefined) ∧
    (0 ≤ code (DOMException v s) ∧ code (DOMException v s) ≤ 25) ∧
    (code (DOMException v s) = 0 ∨
      jsIndex DOMExceptionNames (code (DOMException v s)) = (DOMException v s).name) ∧
    (∀ n : Int, 1 ≤ n → n ≤ 25 →
      (DOMException v s).name = jsIndex DOMExceptionNames n → code (DOMException v s) = n) := by
  refine ⟨?_, code_range _, code_pointback _, fun n h1 h2 h => code_of_name_eq h1 h2 h⟩
  by_cases hv : isValidDomExceptionCode v = true
  · obtain ⟨q, rfl, h1, h2⟩ := isValid_exists hv
    rw [DOMException_legacy q h1 h2 s]
    by_cases hden : q.den = 1
    · left
      have hq : (q.num : ℚ) = q := (Rat.den_eq_one_iff q).mp hden
      have h1' : 1 ≤ q.num := by rw [← hq] at h1; exact_mod_cast h1
      have h2' : q.num ≤ 25 := by rw [← hq] at h2; exact_mod_cast h2
      have hlen : DOMExceptionNames.length = 37 := by decide
      rw [← hq]
      exact jsIndex_mem_of_lt (by omega) (by omega)
    · right; right
      exact jsIndex_not_integral DOMExceptionNames hden
  · have hv' : isValidDomExceptionCode v = false := by simpa using hv
    rw [DOMException_fallback v s hv']
    by_cases hs : endsWithError s = true
    · right; left
      simp [hs]
    · left
      have hs' : endsWithError s = false := by simpa using hs
      simp only [hs']
      simp only [Bool.false_eq_true, if_false]
      decide

/-- Witness for the amended C4 at message "m" and name "FooError". -/
theorem C4_amended_invariant_witness :
    ((DOMException (JSValue.str "m") (JSValue.str "FooError")).name ∈
        DOMExceptionNames.map JSValue.str ∨
      endsWithError (DOMException (JSValue.str "m") (JSValue.str "FooError")).name = true ∨
      (DOMException (JSValue.str "m") (JSValue.str "FooError")).name = JSValue.undefined) ∧
    (0 ≤ code (DOMException (JSValue.str "m") (JSValue.str "FooError")) ∧
      code (DOMException (JSValue.str "m") (JSValue.str "FooError")) ≤ 25) ∧
    (code (DOMException (JSValue.str "m") (JSValue.str "FooError")) = 0 ∨
      jsIndex DOMExceptionNames (code (DOMException (JSValue.str "m") (JSValue.str "FooError"))) =
        (DOMException (JSValue.str "m") (JSValue.str "FooError")).name) ∧
    (∀ n : Int, 1 ≤ n → n ≤ 25 →
      (DOMException (JSValue.str "m") (JSValue.str "FooError")).name =
          jsIndex DOMExceptionNames n →
        code (DOMException (JSValue.str "m") (JSValue.str "FooError")) = n) :=
  C4_amended_invariant (JSValue.str "m") (JSValue.str "FooError")

/-- C5: construction is total — every pair of inputs yields a fully formed
instance — and input that is malformed in both positions (first argument not a
valid legacy code, second argument not an "Error"-suffixed string) is silently
normalized to the generic "Error" kind with code 0 instead of being rejected. -/
theorem C5_total_normalizing (v s : JSValue) :
    ∃ e : DOMExceptionInst, DOMException v s = e ∧
      (isValidDomExceptionCode v = false → endsWithError s = false →
        e.name = JSValue.str "Error" ∧ code e = 0) :=
  ⟨DOMException v s, rfl, fun hv hs => fallback_default v s hv hs⟩

/-- Witness for C5 at the malformed pair (99, "x"). -/
theorem C5_total_normalizing_witness :
    ∃ e : DOMExceptionInst, DOMException (JSValue.num 99) (JSValue.str "x") = e ∧
      (isValidDomExceptionCode (JSValue.num 99) = false →
        endsWithError (JSValue.str "x") = false →
        e.name = JSValue.str "Error" ∧ code e = 0) :=
  C5_total_normalizing (JSValue.num 99) (JSValue.str "x")

/-- C6: each of the 25 legacy named integer constants equals the registry
lookup (nameToCode, the spec's KindRegistry.positionOf) of its corresponding
kind name. -/
theorem C6_constants_match_registry :
    nameToCode "IndexSizeError" = INDEX_SIZE_ERR ∧
    nameToCode "DomstringSizeError" = DOMSTRING_SIZE_ERR ∧
    nameToCode "HierarchyRequestError" = HIERARCHY_REQUEST_ERR ∧
    nameToCode "WrongDocumentError" = WRONG_DOCUMENT_ERR ∧
    nameToCode "InvalidCharacterError" = INVALID_CHARACTER_ERR ∧
    nameToCode "NoDataAllowedError" = NO_DATA_ALLOWED_ERR ∧
    nameToCode "NoModificationAllowedError" = NO_MODIFICATION_ALLOWED_ERR ∧
    nameToCode "NotFoundError" = NOT_FOUND_ERR ∧
    nameToCode "NotSupportedError" = NOT_SUPPORTED_ERR ∧
    nameToCode "InUseAttributeError" = INUSE_ATTRIBUTE_ERR ∧
    nameToCode "InvalidStateError" = INVALID_STATE_ERR ∧
    nameToCode "SyntaxError" = SYNTAX_ERR ∧
    nameToCode "InvalidModificationError" = INVALID_MODIFICATION_ERR ∧
    nameToCode "NamespaceError" = NAMESPACE_ERR ∧
    nameToCode "InvalidAccessError" = INVALID_ACCESS_ERR ∧
    nameToCode "ValidationError" = VALIDATION_ERR ∧
    nameToCode "TypeMismatchError" = TYPE_MISMATCH_ERR ∧
    nameToCode "SecurityError" = SECURITY_ERR ∧
    nameToCode "NetworkError" = NETWORK_ERR ∧
    nameToCode "AbortError" = ABORT_ERR ∧
    nameToCode "URLMismatchError" = URL_MISMATCH_ERR ∧
    nameToCode "QuotaExceededError" = QUOTA_EXCEEDED_ERR ∧
    nameToCode "TimeoutError" = TIMEOUT_ERR ∧
    nameToCode "InvalidNodeTypeError" = INVALID_NODE_TYPE_ERR ∧
    nameToCode "DataCloneError" = DATA_CLONE_ERR := by
  decide

/-- C7 counterexample: in legacy-code mode with second argument 0, the code
stores the empty string (0 is falsy in `nameOrMessage || ''`), while the
claimed coercion of 0 to a string is "0". -/
theorem C7_counterexample :
    (DOMException (JSValue.num 3) (JSValue.num 0)).message = JSValue.str "" ∧
    specCoerceToString (JSValue.num 0) = JSValue.str "0" ∧
    JSValue.str "" ≠ JSValue.str "0" := by
  decide

/-- C7 amended: in legacy-code mode the stored message is the second argument
itself, uncoerced, when that argument is truthy, and the empty string when the
argument is absent or otherwise falsy. -/
theorem C7_amended_legacy_message (n : Int) (h1 : 1 ≤ n) (h2 : n ≤ 25) (s : JSValue) :
    (DOMException (JSValue.num n) s).message = (if jsTruthy s then s else JSValue.str "") ∧
    (DOMException (JSValue.num n) JSValue.undefined).message = JSValue.str "" := by
  have h1' : (1 : ℚ) ≤ (n : ℚ) := by exact_mod_cast h1
  have h2' : (n : ℚ) ≤ 25 := by exact_mod_cast h2
  constructor
  · rw [DOMException_legacy (n : ℚ) h1' h2' s]
    rfl
  · rw [DOMException_legacy (n : ℚ) h1' h2' JSValue.undefined]
    rfl

/-- Witness for the amended C7 at n = 3 and second argument 0. -/
theorem C7_amended_legacy_message_witness :
    (1 : Int) ≤ 3 ∧ (3 : Int) ≤ 25 ∧
      ((DOMException (JSValue.num 3) (JSValue.num 0)).message =
          (if jsTruthy (JSValue.num 0) then JSValue.num 0 else JSValue.str "") ∧
        (DOMException (JSValue.num 3) JSValue.undefined).message = JSValue.str "") :=
  ⟨by decide, by decide, C7_amended_legacy_message 3 (by decide) (by decide) (JSValue.num 0)⟩

/-- C8 counterexample: the registry holds 37 kind names, not 34 as claimed. -/
theorem C8_counterexample : DOMExceptionNames.length = 37 ∧ (37 : Nat) ≠ 34 := by
  decide

/-- C8 amended: the registry is an ordered sequence of exactly 37 distinct
kind names beginning with "Error" and ending with "OptOutError"; the names at
positions 1 through 25 read back exactly those positions as their legacy
codes, while position 0 and every position past 25 read back no legacy code. -/
theorem C8_amended_registry :
    DOMExceptionNames.length = 37 ∧
    DOMExceptionNames.Nodup ∧
    DOMExceptionNames.head? = some "Error" ∧
    DOMExceptionNames.getLast? = some "OptOutError" ∧
    ((List.range 25).all fun k =>
      nameToCode (DOMExceptionNames.getD (k + 1) "") == Int.ofNat (k + 1)) = true ∧
    nameToCode (DOMExceptionNames.getD 0 "") = 0 ∧
    ((List.range 11).all fun k =>
      nameToCode (DOMExceptionNames.getD (k + 26) "") == 0) = true := by
  refine ⟨by decide, by decide, by decide, by decide, by decide, by decide, by decide⟩

/-- C9: a ParseError stores exactly its message and locator, and a ParseError
value is distinguishable by type from every DOMException value: the
instanceof-style discriminator accepts every ParseError and rejects every
DOMException. -/
theorem C9_parse_error_distinct (m l : JSValue) :
    (ParseError m l).message = m ∧ (ParseError m l).locator = l ∧
    isParseErrorValue (JSErrorValue.parseError (ParseError m l)) = true ∧
    (∀ d : DOMExceptionInst, isParseErrorValue (JSErrorValue.domException d) = false) :=
  ⟨rfl, rfl, rfl, fun _ => rfl⟩

/-- Witness for C9 at a concrete message and locator. -/
theorem C9_parse_error_distinct_witness :
    (ParseError (JSValue.str "boom") (JSValue.obj 0)).message = JSValue.str "boom" ∧
    (ParseError (JSValue.str "boom") (JSValue.obj 0)).locator = JSValue.obj 0 ∧
    isParseErrorValue
        (JSErrorValue.parseError (ParseError (JSValue.str "boom") (JSValue.obj 0))) = true ∧
    (∀ d : DOMExceptionInst, isParseErrorValue (JSErrorValue.domException d) = false) :=
  C9_parse_error_distinct (JSValue.str "boom") (JSValue.obj 0)

/-- C10: in name/message mode, a second argument that is a string ending in
"Error" but absent from the registry is stored verbatim as the instance's
name (not replaced by the generic "Error"), and the code reads back 0, so
names outside the registry are reachable through construction. -/
theorem C10_nonregistry_name (v : JSValue) (s : String) (hv : isValidDomExceptionCode v = false)
    (hs : endsWithError (JSValue.str s) = true) (hmem : s ∉ DOMExceptionNames) :
    (DOMException v (JSValue.str s)).name = JSValue.str s ∧
    code (DOMException v (JSValue.str s)) = 0 := by
  have h2 : DOMException v (JSValue.str s) = { name := JSValue.str s, message := v } := by
    rw [DOMException_fallback v _ hv, hs]
    simp
  rw [h2]
  refine ⟨rfl, ?_⟩
  rw [code_mk]
  have hidx : jsIndexOf DOMExceptionNames (JSValue.str s) = -1 := strIndexOf_not_mem hmem
  rw [hidx]
  decide

/-- Witness for C10 at message "m" and the non-registry name "FooError". -/
theorem C10_nonregistry_name_witness :
    isValidDomExceptionCode (JSValue.str "m") = false ∧
    endsWithError (JSValue.str "FooError") = true ∧
    "FooError" ∉ DOMExceptionNames ∧
    ((DOMException (JSValue.str "m") (JSValue.str "FooError")).name = JSValue.str "FooError" ∧
      code (DOMException (JSValue.str "m") (JSValue.str "FooError")) = 0) :=
  ⟨by decide, by decide, by decide,
    C10_nonregistry_name (JSValue.str "m") "FooError" (by decide) (by decide) (by decide)⟩
